import Mathlib

/-!
Verification of the treecopy directory-tree renderer
(`src/treecopy/cli.py`, class `DirectoryTree`).

The filesystem snapshot is modelled as an inductive tree of entries; a
directory carries a `listable` flag that is `false` when listing it
raises (e.g. `PermissionError`).  Diagnostics (`click.echo(..., err=True)`
warnings) are modelled as a list of strings returned alongside the
rendered text.  Relative-path computation (`path.relative_to(root)`)
is modelled as an `Option String` argument to `should_ignore`: `none`
stands for a `ValueError`; during the renderer's own traversal the
relative path always exists, so traversal passes `some _`.
-/

namespace Treecopy

/-- A filesystem snapshot entry: a plain file, or a directory with a
name, a flag saying whether listing it succeeds, and its children. -/
inductive Entry where
  | file (name : String)
  | dir (name : String) (listable : Bool) (children : List Entry)
deriving Repr

/-- The entry's bare name (`path.name`). -/
def Entry.name : Entry → String
  | .file n => n
  | .dir n _ _ => n

/-- `path.is_dir()`. -/
def Entry.isDir : Entry → Bool
  | .file _ => false
  | .dir _ _ _ => true

/-- `directory.name + '/' if directory.is_dir() else directory.name`. -/
def displayName (e : Entry) : String :=
  if e.isDir then e.name ++ "/" else e.name

/-- The matcher configuration: the configured ignore-pattern set
(`self.ignore_patterns`, a set of strings — order is irrelevant to both
membership and the `any(...)` scan, so a list suffices) and the optional
compiled gitignore spec (`self.gitignore_spec`), abstracted as its
`match_file` verdict on a root-relative path string. -/
structure Matcher where
  ignore_patterns : List String
  gitignore_spec : Option (String → Bool)

/-- `DirectoryTree.DEFAULT_IGNORE_PATTERNS`. -/
def DEFAULT_IGNORE_PATTERNS : List String :=
  [".git", "__pycache__", "node_modules", ".env", ".idea", ".vscode",
   "*.pyc", "*.pyo", "*.pyd", ".DS_Store"]

/-- Python `s.startswith(p)`: codepoint-wise prefix test. -/
def strStartsWith (s p : String) : Bool :=
  p.data.isPrefixOf s.data

/-- Python `s.endswith(p)`: codepoint-wise suffix test. -/
def strEndsWith (s p : String) : Bool :=
  p.data.isSuffixOf s.data

/-- Python `s[n:]`: drop the first `n` characters. -/
def strDrop (s : String) (n : Nat) : String :=
  ⟨s.data.drop n⟩

/-- `DirectoryTree.should_ignore(path)`.

`name` is `path.name`; `rel` is the result of
`str(path.relative_to(self.root_dir))`, with `none` standing for the
`ValueError` case.  Returns the boolean verdict together with the
diagnostics emitted.  Mirrors the source order: set membership first,
then the `*.`-suffix scan, then (only if a gitignore spec is loaded)
the relative-path computation and `match_file`; a `ValueError` there is
caught, a warning is echoed and `False` is returned. -/
def should_ignore (m : Matcher) (name : String) (rel : Option String) :
    Bool × List String :=
  if m.ignore_patterns.contains name then (true, [])
  else if m.ignore_patterns.any
      (fun pattern => strStartsWith pattern "*." && strEndsWith name (strDrop pattern 1)) then
    (true, [])
  else
    match m.gitignore_spec with
    | some spec =>
      match rel with
      | some rp => (spec rp, [])
      | none => (false, ["Warning: Error processing path " ++ name])
    | none => (false, [])

/-- `str(item.relative_to(self.root_dir))` for a child named `name` of a
directory whose own root-relative path is `rel` (`""` for the root). -/
def childRel (rel name : String) : String :=
  if rel = "" then name else rel ++ "/" ++ name

/-- `sorted(directory.iterdir())`: Python sorts the child paths, which
for siblings coincides with codepoint-lexicographic order of their
names. -/
def sortEntries (cs : List Entry) : List Entry :=
  List.insertionSort (fun a b => a.name ≤ b.name) cs

/-- The filter predicate of the list comprehension:
`not self.should_ignore(item)`, for a child of the directory at `rel`. -/
def survives (m : Matcher) (rel : String) (c : Entry) : Bool :=
  !(should_ignore m c.name (some (childRel rel c.name))).1

/-- `[item for item in sorted(directory.iterdir()) if not self.should_ignore(item)]`. -/
def processItems (m : Matcher) (rel : String) (cs : List Entry) : List Entry :=
  (sortEntries cs).filter (survives m rel)

theorem sizeOf_filter_le (p : Entry → Bool) (l : List Entry) :
    sizeOf (l.filter p) ≤ sizeOf l := by
  induction l with
  | nil => simp
  | cons a l ih =>
    cases h : p a with
    | true =>
      rw [List.filter_cons_of_pos h]
      simp only [List.cons.sizeOf_spec]
      omega
    | false =>
      rw [List.filter_cons_of_neg (by simp [h])]
      simp only [List.cons.sizeOf_spec]
      omega

theorem sizeOf_of_perm {l l' : List Entry} (h : l.Perm l') :
    sizeOf l = sizeOf l' := by
  induction h with
  | nil => rfl
  | cons a _ ih => simp only [List.cons.sizeOf_spec]; omega
  | swap a b l => simp only [List.cons.sizeOf_spec]; omega
  | trans _ _ ih1 ih2 => omega

theorem sizeOf_sortEntries (cs : List Entry) :
    sizeOf (sortEntries cs) = sizeOf cs :=
  sizeOf_of_perm (List.perm_insertionSort _ cs)

theorem sizeOf_processItems (m : Matcher) (rel : String) (cs : List Entry) :
    sizeOf (processItems m rel cs) ≤ sizeOf cs := by
  calc sizeOf (processItems m rel cs)
      ≤ sizeOf (sortEntries cs) := sizeOf_filter_le _ _
    _ = sizeOf cs := sizeOf_sortEntries cs

mutual

/-- `DirectoryTree._generate_tree(directory, prefix, is_last)`.

`rel` is the entry's own root-relative path (used to compute children's
relative paths).  Returns the rendered text and the diagnostics: a
directory whose listing fails contributes its own line and a warning
but no children. -/
def generateTree (m : Matcher) (rel pre : String) (is_last : Bool)
    (e : Entry) : String × List String :=
  let line := pre ++ (if is_last then "└── " else "├── ") ++ displayName e ++ "\n"
  match e with
  | .file _ => (line, [])
  | .dir _ ok cs =>
    if ok then
      let r := genItems m rel (pre ++ (if is_last then "    " else "│   "))
        (processItems m rel cs)
      (line ++ r.1, r.2)
    else
      (line, ["Warning: Permission denied accessing " ++ rel])
termination_by sizeOf e
decreasing_by
  simp_wf
  rename_i cs _hok
  have h := sizeOf_processItems m rel cs
  omega

/-- The `for i, item in enumerate(items)` loop of `_generate_tree`:
renders each item, the final one with `is_last = True`. -/
def genItems (m : Matcher) (rel pre : String) (items : List Entry) :
    String × List String :=
  match items with
  | [] => ("", [])
  | [c] => generateTree m (childRel rel c.name) pre true c
  | c :: c' :: rest =>
    let r1 := generateTree m (childRel rel c.name) pre false c
    let r2 := genItems m rel pre (c' :: rest)
    (r1.1 ++ r2.1, r1.2 ++ r2.2)
termination_by sizeOf items
decreasing_by
  all_goals simp_wf
  all_goals omega

end

/-- `DirectoryTree.generate()`.

The root is given by its name, whether listing it succeeds, and its
children.  An unlistable root yields the empty string plus a
diagnostic; otherwise the root line is followed by the rendered,
filtered, sorted children. -/
def generate (m : Matcher) (rootName : String) (rootListable : Bool)
    (children : List Entry) : String × List String :=
  if rootListable then
    let r := genItems m "" "" (processItems m "" children)
    (rootName ++ "/\n" ++ r.1, r.2)
  else
    ("", ["Error: Permission denied accessing root directory"])

/-- Matcher configured as the class default: `DEFAULT_IGNORE_PATTERNS`
and no `.gitignore` file at the root. -/
def noGit : Matcher := ⟨DEFAULT_IGNORE_PATTERNS, none⟩

/-! Sortedness helper lemmas for the children listing. -/

theorem sortEntries_sorted (cs : List Entry) :
    (sortEntries cs).Sorted (fun a b => a.name ≤ b.name) := by
  have ht : IsTotal Entry (fun a b => a.name ≤ b.name) :=
    ⟨fun a b => le_total a.name b.name⟩
  have htr : IsTrans Entry (fun a b => a.name ≤ b.name) :=
    ⟨fun a b c hab hbc => le_trans hab hbc⟩
  exact List.sorted_insertionSort _ cs

theorem processItems_pairwise_lt (m : Matcher) (rel : String) (cs : List Entry)
    (hnd : (cs.map Entry.name).Nodup) :
    (processItems m rel cs).Pairwise (fun a b => a.name < b.name) := by
  have hperm : (sortEntries cs).Perm cs := List.perm_insertionSort _ cs
  have hnd' : ((sortEntries cs).map Entry.name).Nodup :=
    ((hperm.map Entry.name).nodup_iff).mpr hnd
  have hne : (sortEntries cs).Pairwise (fun a b => a.name ≠ b.name) :=
    List.pairwise_map.mp hnd'
  have hlt : (sortEntries cs).Pairwise (fun a b => a.name < b.name) :=
    ((sortEntries_sorted cs).and hne).imp (fun h => lt_of_le_of_ne h.1 h.2)
  exact hlt.sublist (List.filter_sublist _)

theorem not_exists_suffix_match {patterns : List String} {name : String}
    (h2 : ∀ p ∈ patterns, (strStartsWith p "*." &&
      strEndsWith name (strDrop p 1)) = false) :
    ¬ ∃ x ∈ patterns, strStartsWith x "*." = true ∧
      strEndsWith name (strDrop x 1) = true := by
  rintro ⟨x, hx, hA, hB⟩
  have hfx := h2 x hx
  rw [hA, hB] at hfx
  simp at hfx

/-! The claims. -/

/-- C1: for a root directory named `a` containing files `b` and `c` and a
subdirectory `d` containing a single file `e`, with the default patterns
(none of which match these entries) and no `.gitignore`, `generate`
returns exactly the expected tree text: root line unprefixed, `├── `
for non-last siblings, `└── ` for last ones, directories suffixed with
`/`, and the last-child subtree indented four spaces. -/
theorem C1_generate_concrete_tree :
    (generate noGit "a" true
      [.file "b", .file "c", .dir "d" true [.file "e"]]).1 =
    "a/\n├── b\n├── c\n└── d/\n    └── e\n" := by
  simp +decide [generate, genItems, generateTree, processItems, sortEntries,
    survives, should_ignore, childRel, displayName, Entry.name, Entry.isDir,
    DEFAULT_IGNORE_PATTERNS, noGit, List.insertionSort, List.orderedInsert]

/-- C2 (counterexample): an unlistable subdirectory does not contribute
zero lines to the rendered output — its own line is rendered.  For root
`a` containing the unlistable directory `locked` (holding `hidden`) and
the file `z`, the output contains the line `├── locked/`; in particular
the subdirectory's contribution to the render is `├── locked/\n`, which
is not the empty string. -/
theorem C2_counterexample :
    (generate noGit "a" true
      [.dir "locked" false [.file "hidden"], .file "z"]).1 =
      "a/\n├── locked/\n└── z\n" ∧
    (generateTree noGit "locked" "" false
      (.dir "locked" false [.file "hidden"])).1 ≠ "" := by
  constructor
  · simp +decide [generate, genItems, generateTree, processItems, sortEntries,
      survives, should_ignore, childRel, displayName, Entry.name, Entry.isDir,
      DEFAULT_IGNORE_PATTERNS, noGit, List.insertionSort, List.orderedInsert]
  · simp +decide [generateTree, displayName, Entry.isDir, Entry.name]

/-- C2 (amended): a subdirectory whose listing fails contributes exactly
its own line — no lines for any of its children — and the render is not
aborted: sibling and ancestor entries still appear (illustrated on a
root whose unlistable subdirectory `locked` hides `hidden` while the
sibling `z` and the root line still appear). -/
theorem C2_unlistable_dir_own_line_only (m : Matcher) (rel pre : String)
    (il : Bool) (n : String) (cs : List Entry) :
    (generateTree m rel pre il (.dir n false cs)).1 =
      pre ++ (if il then "└── " else "├── ") ++ (n ++ "/") ++ "\n" ∧
    (generate noGit "a" true
      [.dir "locked" false [.file "hidden"], .file "z"]).1 =
      "a/\n├── locked/\n└── z\n" := by
  constructor
  · simp [generateTree, displayName, Entry.isDir, Entry.name]
  · simp +decide [generate, genItems, generateTree, processItems, sortEntries,
      survives, should_ignore, childRel, displayName, Entry.name, Entry.isDir,
      DEFAULT_IGNORE_PATTERNS, noGit, List.insertionSort, List.orderedInsert]

/-- C3: an entry whose bare name exactly equals one of the configured
literal ignore patterns is ignored, regardless of the gitignore spec
(even a negation rule that would re-include it): the membership check is
evaluated first and its match is final. -/
theorem C3_literal_name_match_is_final (m : Matcher) (name : String)
    (rel : Option String) (h : name ∈ m.ignore_patterns) :
    (should_ignore m name rel).1 = true := by
  simp [should_ignore, h]

/-- Witness for C3: the matcher has the single literal pattern `.git`
and a gitignore spec that re-includes everything (always `false`), yet
`.git` is still ignored. -/
theorem C3_witness :
    ".git" ∈ [".git"] ∧
    (should_ignore ⟨[".git"], some (fun _ => false)⟩ ".git"
      (some ".git")).1 = true :=
  ⟨by decide,
   C3_literal_name_match_is_final ⟨[".git"], some (fun _ => false)⟩ ".git"
     (some ".git") (by decide)⟩

/-- C4: a configured pattern of the form `*.<suffix>` ignores every
entry whose name ends with `.<suffix>`, also when no `.gitignore` is
present (the matcher is arbitrary here, so in particular one with
`gitignore_spec = none`). -/
theorem C4_suffix_glob_ignored (m : Matcher) (name p : String)
    (rel : Option String) (hp : p ∈ m.ignore_patterns)
    (hstar : strStartsWith p "*." = true)
    (hend : strEndsWith name (strDrop p 1) = true) :
    (should_ignore m name rel).1 = true := by
  have hex : ∃ x ∈ m.ignore_patterns, strStartsWith x "*." = true ∧
      strEndsWith name (strDrop x 1) = true := ⟨p, hp, hstar, hend⟩
  by_cases hc : name ∈ m.ignore_patterns
  · simp [should_ignore, hc]
  · simp [should_ignore, hc, List.any_eq_true, hex]

/-- Witness for C4: under the default pattern set with no `.gitignore`,
the name `module.pyc` is ignored via the pattern `*.pyc`. -/
theorem C4_witness :
    "*.pyc" ∈ DEFAULT_IGNORE_PATTERNS ∧
    strStartsWith "*.pyc" "*." = true ∧
    strEndsWith "module.pyc" (strDrop "*.pyc" 1) = true ∧
    (should_ignore noGit "module.pyc" none).1 = true :=
  ⟨by decide, by decide, by decide,
   C4_suffix_glob_ignored noGit "module.pyc" "*.pyc" none (by decide)
     (by decide) (by decide)⟩

/-- C5: the children list the renderer iterates over — sorted then
filtered — is in strict ascending codepoint order of names (given that
sibling names are distinct, as on a real filesystem), and filtering
never reorders the survivors: the filtered list is a sublist of the
sorted listing. -/
theorem C5_children_strictly_sorted (m : Matcher) (rel : String)
    (cs : List Entry) (hnd : (cs.map Entry.name).Nodup) :
    (processItems m rel cs).Pairwise (fun a b => a.name < b.name) ∧
    (processItems m rel cs).Sublist (sortEntries cs) :=
  ⟨processItems_pairwise_lt m rel cs hnd, List.filter_sublist _⟩

/-- Witness for C5: a concrete directory listing with distinct names,
whose processed items are strictly sorted by name. -/
theorem C5_witness :
    (([Entry.file "c", Entry.dir "b" true [], Entry.file "a"].map
        Entry.name).Nodup) ∧
    (processItems noGit ""
      [Entry.file "c", Entry.dir "b" true [], Entry.file "a"]).Pairwise
        (fun a b => a.name < b.name) ∧
    (processItems noGit ""
      [Entry.file "c", Entry.dir "b" true [], Entry.file "a"]).Sublist
        (sortEntries [Entry.file "c", Entry.dir "b" true [], Entry.file "a"]) :=
  ⟨by decide,
   (C5_children_strictly_sorted noGit ""
     [Entry.file "c", Entry.dir "b" true [], Entry.file "a"] (by decide)).1,
   (C5_children_strictly_sorted noGit ""
     [Entry.file "c", Entry.dir "b" true [], Entry.file "a"] (by decide)).2⟩

/-- C6: when a gitignore spec is present and the entry matches neither a
literal pattern nor a suffix-glob pattern, the gitignore matcher's
verdict on the root-relative path is the result — in particular an entry
re-included by a negation rule (spec verdict `false`) is not ignored. -/
theorem C6_gitignore_verdict_authoritative (patterns : List String)
    (spec : String → Bool) (name rp : String)
    (h1 : name ∉ patterns)
    (h2 : ∀ p ∈ patterns, (strStartsWith p "*." &&
      strEndsWith name (strDrop p 1)) = false) :
    (should_ignore ⟨patterns, some spec⟩ name (some rp)).1 = spec rp := by
  simp [should_ignore, h1, List.any_eq_true, not_exists_suffix_match h2]

/-- Witness for C6: under the default patterns, the verdict for
`notes.txt` is exactly the spec's verdict — here a spec modelling
`notes.txt` excluded then re-included by a `!notes.txt` negation, so the
verdict is `false` (not ignored). -/
theorem C6_witness :
    "notes.txt" ∉ DEFAULT_IGNORE_PATTERNS ∧
    (∀ p ∈ DEFAULT_IGNORE_PATTERNS, (strStartsWith p "*." &&
      strEndsWith "notes.txt" (strDrop p 1)) = false) ∧
    (should_ignore ⟨DEFAULT_IGNORE_PATTERNS, some (fun _ => false)⟩
      "notes.txt" (some "notes.txt")).1 = false :=
  ⟨by decide, by decide,
   C6_gitignore_verdict_authoritative DEFAULT_IGNORE_PATTERNS
     (fun _ => false) "notes.txt" "notes.txt" (by decide) (by decide)⟩

/-- C7: if listing the root itself fails, `generate` returns the empty
string — no partial output — and surfaces a diagnostic. -/
theorem C7_root_unlistable_empty (m : Matcher) (rootName : String)
    (children : List Entry) :
    (generate m rootName false children).1 = "" ∧
    (generate m rootName false children).2 ≠ [] := by
  simp [generate]

/-- C8: an entry that matches no literal or suffix-glob pattern and
whose root-relative path cannot be computed (the `ValueError` branch,
reachable when a gitignore spec is present) yields the verdict `false`
(do not ignore) together with a diagnostic, so traversal is not
aborted. -/
theorem C8_relpath_failure_not_ignored (patterns : List String)
    (spec : String → Bool) (name : String)
    (h1 : name ∉ patterns)
    (h2 : ∀ p ∈ patterns, (strStartsWith p "*." &&
      strEndsWith name (strDrop p 1)) = false) :
    (should_ignore ⟨patterns, some spec⟩ name none).1 = false ∧
    (should_ignore ⟨patterns, some spec⟩ name none).2 ≠ [] := by
  simp [should_ignore, h1, List.any_eq_true, not_exists_suffix_match h2]

/-- Witness for C8: the default patterns, a gitignore spec that ignores
everything, and the name `stray.txt` with no computable relative path:
verdict `false`, diagnostics nonempty. -/
theorem C8_witness :
    "stray.txt" ∉ DEFAULT_IGNORE_PATTERNS ∧
    (∀ p ∈ DEFAULT_IGNORE_PATTERNS, (strStartsWith p "*." &&
      strEndsWith "stray.txt" (strDrop p 1)) = false) ∧
    ((should_ignore ⟨DEFAULT_IGNORE_PATTERNS, some (fun _ => true)⟩
        "stray.txt" none).1 = false ∧
     (should_ignore ⟨DEFAULT_IGNORE_PATTERNS, some (fun _ => true)⟩
        "stray.txt" none).2 ≠ []) :=
  ⟨by decide, by decide,
   C8_relpath_failure_not_ignored DEFAULT_IGNORE_PATTERNS (fun _ => true)
     "stray.txt" (by decide) (by decide)⟩

/-- C9: rendering is deterministic — two invocations of `generate` on
the same filesystem snapshot with the same ignore configuration produce
identical output (in this pure embedding, equality of the inputs gives
equality of the outputs). -/
theorem C9_deterministic (m m' : Matcher) (n n' : String) (ok ok' : Bool)
    (cs cs' : List Entry) (hm : m = m') (hn : n = n') (ho : ok = ok')
    (hc : cs = cs') :
    generate m n ok cs = generate m' n' ok' cs' := by
  subst hm; subst hn; subst ho; subst hc; rfl

/-- Witness for C9: two renders of the same concrete snapshot with the
default configuration agree. -/
theorem C9_witness :
    noGit = noGit ∧ "a" = "a" ∧ true = true ∧
    ([Entry.file "b"] : List Entry) = [Entry.file "b"] ∧
    generate noGit "a" true [Entry.file "b"] =
      generate noGit "a" true [Entry.file "b"] :=
  ⟨rfl, rfl, rfl, rfl,
   C9_deterministic noGit noGit "a" "a" true true [Entry.file "b"]
     [Entry.file "b"] rfl rfl rfl rfl⟩

/-- C10 (implicit behaviour): the set-membership check does not
distinguish literal rules from glob-shaped rules, so an entry literally
named `*.pyc` (or `*.pyo`) is ignored under the default pattern set via
membership alone, whatever the gitignore spec and relative path are. -/
theorem C10_glob_text_as_literal_name (g : Option (String → Bool))
    (rel : Option String) :
    (should_ignore ⟨DEFAULT_IGNORE_PATTERNS, g⟩ "*.pyc" rel).1 = true ∧
    (should_ignore ⟨DEFAULT_IGNORE_PATTERNS, g⟩ "*.pyo" rel).1 = true := by
  constructor <;> simp +decide [should_ignore, DEFAULT_IGNORE_PATTERNS]

end Treecopy
